import Mathlib

/-!
Verification development for `photo_renamer.py`, a single-file utility that
scans a directory tree for media files, resolves a capture date for each file
(metadata first, filename digits second), and copies files into a
date-bucketed output tree.

The Python source is shallowly embedded below.  Pure helpers become Lean
functions; Python exceptions become an explicit `PyErr` error type threaded
through `Except`; the filesystem becomes an explicit state value (an
association list of path/content pairs plus a list of existing directories);
side effects (mkdir, copy, rename, log lines, the interactive prompt) are
recorded in an explicit trace.  The external metadata extractor
(`pyexifinfo.get_json`, which shells out to exiftool) is modelled as an
oracle carried on each source file: `some mapping` when the reader succeeds,
`none` when it fails on an unsupported/corrupt file.
-/

/-- Python exception classes that appear in the source.  `nameError` models a
reference to an unbound name; the module header reads `from dateutil import
parse`, which binds only `parse`, so the expression `dateutil.parse(...)` on
line 51 raises `NameError` whenever it is reached.  (In fact the import
itself already fails, because the `dateutil` package exports no top-level
`parse`; either way line 51 can never produce a value.) -/
inductive PyErr where
  | keyError
  | valueError
  | overflowError
  | nameError
  | typeError
  | assertionError
  deriving DecidableEq

/-- Characters of a string (`String.data` unpacked once, used throughout so
that every definition evaluates by `rfl`/`decide` on concrete inputs). -/
def strChars (s : String) : List Char :=
  s.data

/-- Python `s.startswith(p)` for a single candidate. -/
def strStartsWith (s p : String) : Bool :=
  (strChars p).isPrefixOf (strChars s)

/-- Python `s.endswith(p)` for a single candidate. -/
def strEndsWith (s p : String) : Bool :=
  (strChars p).isSuffixOf (strChars s)

/-- Python substring containment `needle in hay`. -/
def strContains (hay needle : String) : Bool :=
  (List.range ((strChars hay).length + 1)).any
    (fun i => (((strChars hay).drop i).take (strChars needle).length) == strChars needle)

/-- Python `s.replace(a, b)` for a single-character pattern and replacement
(the source only ever replaces single characters: space, colon, slash). -/
def replaceChar (s : String) (a b : Char) : String :=
  String.mk ((strChars s).map (fun c => if c = a then b else c))

/-- Python `s.lower()` (ASCII; the configured extensions are ASCII). -/
def strLower (s : String) : String :=
  String.mk ((strChars s).map Char.toLower)

/-- Python `s.upper()` (ASCII). -/
def strUpper (s : String) : String :=
  String.mk ((strChars s).map Char.toUpper)

/-- Python slicing `s[:n]` (by characters; all names involved are ASCII). -/
def strTake (s : String) (n : Nat) : String :=
  String.mk ((strChars s).take n)

/-- Index of the last `.` in a character list, if any. -/
def lastDotIndex (cs : List Char) : Option Nat :=
  ((List.range cs.length).filter (fun i => cs.getD i ' ' = '.')).getLast?

/-- `os.path.splitext` restricted to a bare filename (no path separator, the
only way the source calls it): split at the last dot, unless every character
before that dot is itself a dot (leading dots, as in `.bashrc`, do not start
an extension). -/
def splitext (p : String) : String × String :=
  let cs := strChars p
  match lastDotIndex cs with
  | none => (p, "")
  | some d =>
    if (List.range d).all (fun i => cs.getD i ' ' = '.') then (p, "")
    else (String.mk (cs.take d), String.mk (cs.drop d))

/-- `pathlib.PurePath.suffix`: the extension of the final component,
`name[i:]` for `i = name.rfind('.')` when `0 < i < len(name) - 1`, else
empty. -/
def pathSuffix (name : String) : String :=
  let cs := strChars name
  match lastDotIndex cs with
  | none => ""
  | some i => if 0 < i ∧ i < cs.length - 1 then String.mk (cs.drop i) else ""

/-- A regular file (or directory entry) of the input tree, together with the
metadata oracle: `metadata = some m` models `pyexifinfo.get_json(path)[0]`
returning the mapping `m`; `metadata = none` models the external reader
failing on an unsupported or corrupt file (raised and caught as one of the
handled error classes in `get_date`). -/
structure SourceFile where
  name : String
  parentAbs : String
  content : String
  metadata : Option (List (String × String))
  isDir : Bool
  deriving DecidableEq

/-- Python dict membership/lookup `key in metadata` / `metadata[key]` over
the JSON object returned by the metadata reader. -/
def lookupMeta (md : List (String × String)) (k : String) : Option String :=
  match md with
  | [] => none
  | (k', v) :: rest => if k' = k then some v else lookupMeta rest k

/-- Embeds `parse_filename_to_date` (src lines 46-51): strip the extension,
delete every non-digit character, require exactly 14 digits (raising
`ValueError` otherwise).  The final line, `str(dateutil.parse(only_numbers))`,
raises `NameError`: the module imports `from dateutil import parse`, which
does not bind the name `dateutil` (see `PyErr`), so the success path of this
function is unreachable. -/
def parse_filename_to_date (filename : String) : Except PyErr String :=
  let stem := (splitext filename).1
  let only_numbers := (strChars stem).filter Char.isDigit
  if only_numbers.length ≠ 14 then Except.error PyErr.valueError
  else Except.error PyErr.nameError

/-- The `for key in keys: if key in metadata: return str(metadata[key])`
loop of `parse_date_from_metadata`, ending in `raise KeyError`. -/
def findFirstKey (md : List (String × String)) : List String → Except PyErr String
  | [] => Except.error PyErr.keyError
  | k :: ks =>
    match lookupMeta md k with
    | some v => Except.ok v
    | none => findFirstKey md ks

/-- Embeds `parse_date_from_metadata` (src lines 54-60).  A failing external
reader is modelled as a raised (and, in `get_date`, caught) `ValueError`. -/
def parse_date_from_metadata (f : SourceFile) (keys : List String) : Except PyErr String :=
  match f.metadata with
  | none => Except.error PyErr.valueError
  | some md => findFirstKey md keys

/-- The fixed priority list of metadata keys (src lines 64-68). -/
def metadata_keys : List String :=
  ["EXIF:DateTimeOriginal", "MakerNotes:DateTimeOriginal", "QuickTime:CreateDate"]

/-- The exception classes handled by the `except` clause on src line 78. -/
def caught : PyErr → Bool
  | PyErr.keyError => true
  | PyErr.valueError => true
  | PyErr.overflowError => true
  | _ => false

/-- Embeds `get_date` (src lines 63-80): try the metadata parser, then the
filename parser, swallowing `KeyError`/`ValueError`/`OverflowError`; return
`None` when both fail; any other exception (notably `NameError` from
`parse_filename_to_date`) propagates to the caller. -/
def get_date (f : SourceFile) : Except PyErr (Option String) :=
  match parse_date_from_metadata f metadata_keys with
  | Except.ok d => Except.ok (some d)
  | Except.error e =>
    if caught e then
      match parse_filename_to_date f.name with
      | Except.ok d => Except.ok (some d)
      | Except.error e2 => if caught e2 then Except.ok none else Except.error e2
    else Except.error e

/-- Embeds `get_new_name` (src lines 83-90): sanitize the resolved date
(spaces to underscores, colons to periods) and append the lowercased
extension.  Python's `if date:` is truthiness: both `None` and the empty
string fall to the `else` branch. -/
def get_new_name (f : SourceFile) : Except PyErr (Option String) :=
  match get_date f with
  | Except.error e => Except.error e
  | Except.ok none => Except.ok none
  | Except.ok (some d) =>
    if d = "" then Except.ok none
    else Except.ok (some (replaceChar (replaceChar d ' ' '_') ':' '.' ++ strLower (pathSuffix f.name)))

/-- Spec-side definition (from the spec's words, for claim C2): the value of
the first present key of the priority list, in order. -/
def firstPresent (md : List (String × String)) : List String → Option String
  | [] => none
  | k :: ks =>
    match lookupMeta md k with
    | some v => some v
    | none => firstPresent md ks

/-- The output filesystem: contents of regular files (path to byte string)
and the set of directories that exist.  The input tree is not part of this
state; source files are read through `SourceFile`. -/
structure FS where
  files : List (String × String)
  dirs : List String
  deriving DecidableEq

/-- Read a file's content, `none` if absent (backs both `Path.exists()` and
`files_equal`, src lines 106-107, which compares the raw bytes of the two
files). -/
def lookupF : List (String × String) → String → Option String
  | [], _ => none
  | (q, c) :: rest, p => if q = p then some c else lookupF rest p

/-- Write (create or overwrite) a file. -/
def writeFile : List (String × String) → String → String → List (String × String)
  | [], p, c => [(p, c)]
  | (q, d) :: rest, p, c => if q = p then (p, c) :: rest else (q, d) :: writeFile rest p c

/-- Remove a file (the source half of `Path.rename`). -/
def eraseFile : List (String × String) → String → List (String × String)
  | [], _ => []
  | (q, d) :: rest, p => if q = p then eraseFile rest p else (q, d) :: eraseFile rest p

/-- Observable side effects of a run, in program order. -/
inductive Effect where
  | mkdir (d : String)
  | copyInto (src dir : String)
  | rename (src dst : String)
  | logSkip (src dst : String)
  | logCopy (src dst : String)
  | printSummary
  | promptUser
  | exitCode (n : Nat)
  deriving DecidableEq

def isCopyInto : Effect → Bool
  | Effect.copyInto _ _ => true
  | _ => false

def isLogSkip : Effect → Bool
  | Effect.logSkip _ _ => true
  | _ => false

def isRenameEff : Effect → Bool
  | Effect.rename _ _ => true
  | _ => false

/-- The command-line arguments (src lines 16-24).  `--log` only configures
the logging collaborator (src lines 29-30, 42-43) and is omitted.  `exclude`
is `none` when `--exclude` is not given (argparse leaves it `None`); the
other fields carry their argparse defaults. -/
structure Args where
  exclude : Option (List String)
  suffix : List String
  prefixes : List String
  out : String
  dir : String

/-- The process-wide globals set by `setup_args` (src lines 32-39) and read
by `copy_and_rename_file`.  Python's `suffices` is a Lean keyword, hence
`suffixes`. -/
structure Config where
  out_dir : String
  prefixes : List String
  suffixes : List String
  exclude : Option (List String)

/-- `setup_args`'s construction of the globals: the suffix list is expanded
to lowercase and uppercase variants of each configured suffix, in order
(src lines 35-38); line 118 reads `args.exclude` directly. -/
def mkConfig (a : Args) : Config :=
  { out_dir := a.out
    prefixes := a.prefixes
    suffixes := a.suffix.foldr (fun s acc => strLower s :: strUpper s :: acc) []
    exclude := a.exclude }

/-- Embeds `create_dir` (src lines 98-103): `mkdir`, treating an existing
directory as success.  Also models the inline
`if not target_directory.is_dir(): target_directory.mkdir()` (src lines
128-129), which has the same effect. -/
def create_dir (fs : FS) (d : String) : FS × List Effect :=
  if fs.dirs.contains d then (fs, [])
  else ({ fs with dirs := fs.dirs ++ [d] }, [Effect.mkdir d])

/-- Path join `directory / name` as the source uses it. -/
def joinPath (d name : String) : String :=
  d ++ "/" ++ name

/-- The absolute path of a source file, `file.resolve()`. -/
def srcPath (f : SourceFile) : String :=
  joinPath f.parentAbs f.name

/-- Year-bucket destination directory, `out_dir / new_name[:4]`
(src line 124). -/
def yearDir (cfg : Config) (nn : String) : String :=
  joinPath cfg.out_dir (strTake nn 4)

/-- Quarantine destination directory,
`failed_dir / str(file.parent.resolve()).replace('/', '_')` (src line 126);
`failed_dir` is `out_dir / 'failed'` (src line 34). -/
def quarantineDir (cfg : Config) (f : SourceFile) : String :=
  joinPath (cfg.out_dir ++ "/failed") (replaceChar f.parentAbs '/' '_')

deriving instance DecidableEq for Except

/-- Result of one `copy_and_rename_file` task: the filesystem after the
task, its effect trace, and `error e` when the task raised exception `e`
(mutations performed before the raise are kept, as on a real filesystem). -/
structure StepOut where
  fs : FS
  trace : List Effect
  result : Except PyErr Unit
  deriving DecidableEq

/-- Src lines 140-143: `shutil.copy(file, target_directory)` copies the
content into the target directory under the source's own basename
(overwriting any file of that name), then `Path.rename` moves that copy to
the final name (silently replacing an existing file, POSIX semantics), and
the mapping is logged. -/
def copy_then_rename (fs : FS) (f : SourceFile) (target nn : String) (t : List Effect) : StepOut :=
  let tmp := joinPath target f.name
  let dst := joinPath target nn
  let files1 := writeFile fs.files tmp f.content
  let files2 := writeFile (eraseFile files1 tmp) dst f.content
  ⟨{ fs with files := files2 },
    t ++ [Effect.copyInto (srcPath f) target, Effect.rename tmp dst, Effect.logCopy (srcPath f) dst],
    Except.ok ()⟩

/-- Embeds `copy_and_rename_file` (src lines 110-143) against globals `cfg`
and filesystem `fs`.  Notes on the faithful error branches: with `--exclude`
omitted, line 118 iterates over `None` and raises `TypeError`; with an
unresolvable file, `new_name` is `None`, so after the copy on line 140 the
rename on line 142 evaluates `target_directory / None`, raising `TypeError`
(the copy under the original basename survives, the log line is never
emitted). -/
def copy_and_rename_file (cfg : Config) (fs : FS) (f : SourceFile) : StepOut :=
  if f.isDir then ⟨fs, [], Except.ok ()⟩
  else if !(cfg.prefixes.any fun p => strStartsWith f.name p) then ⟨fs, [], Except.ok ()⟩
  else if !(cfg.suffixes.any fun s => strEndsWith f.name s) then ⟨fs, [], Except.ok ()⟩
  else
    match cfg.exclude with
    | none => ⟨fs, [], Except.error PyErr.typeError⟩
    | some exs =>
      if exs.any (fun ex => strContains f.parentAbs ex) then ⟨fs, [], Except.ok ()⟩
      else
        match get_new_name f with
        | Except.error e => ⟨fs, [], Except.error e⟩
        | Except.ok (some nn) =>
          let target := yearDir cfg nn
          let fs1 := (create_dir fs target).1
          let t1 := (create_dir fs target).2
          match lookupF fs1.files (joinPath target nn) with
          | some c =>
            if c = f.content then
              ⟨fs1, t1 ++ [Effect.logSkip (srcPath f) (joinPath target nn)], Except.ok ()⟩
            else
              copy_then_rename fs1 f target ((splitext nn).1 ++ "_collision" ++ (splitext nn).2) t1
          | none => copy_then_rename fs1 f target nn t1
        | Except.ok none =>
          let target := quarantineDir cfg f
          let fs1 := (create_dir fs target).1
          let t1 := (create_dir fs target).2
          ⟨{ fs1 with files := writeFile fs1.files (joinPath target f.name) f.content },
            t1 ++ [Effect.copyInto (srcPath f) target], Except.error PyErr.typeError⟩

/-- The fan-out of per-file tasks (src lines 154-156).  The process pool's
tasks share only the filesystem; they are modelled as one sequential
interleaving.  `executor.map`'s result iterator is never consumed, so an
exception raised inside a task is recorded in its future and silently
dropped: processing continues with the remaining files. -/
def process_files (cfg : Config) (fs : FS) : List SourceFile → FS × List Effect
  | [] => (fs, [])
  | f :: rest =>
    let s := copy_and_rename_file cfg fs f
    let r := process_files cfg s.fs rest
    (r.1, s.trace ++ r.2)

/-- `pathlib.Path(p).parent` rendered as a string (enough for the assert on
src line 28): everything before the last separator, `"."` when there is no
separator, `"/"` for a top-level entry. -/
def parentOfPath (p : String) : String :=
  let cs := strChars p
  match ((List.range cs.length).filter (fun i => cs.getD i ' ' = '/')).getLast? with
  | none => "."
  | some i => if i = 0 then "/" else String.mk (cs.take i)

/-- Embeds the `__main__` block (src lines 146-156) together with
`setup_args` (src lines 27-39) and `prompt_proceed` (src lines 93-95):
assert the output directory is not inside the input directory, create the
output root and the failed root, print the filter summary, prompt, and exit
with status 0 unless the answer is exactly `"y"`; on `"y"`, process every
discovered file. -/
def main_run (a : Args) (answer : String) (fs0 : FS) (files : List SourceFile) :
    FS × List Effect × Except PyErr Unit :=
  if parentOfPath a.out = a.dir then (fs0, [], Except.error PyErr.assertionError)
  else
    let fs1 := (create_dir fs0 a.out).1
    let t1 := (create_dir fs0 a.out).2
    let fs2 := (create_dir fs1 (a.out ++ "/failed")).1
    let t2 := (create_dir fs1 (a.out ++ "/failed")).2
    let t3 := [Effect.printSummary, Effect.promptUser]
    if answer = "y" then
      let r := process_files (mkConfig a) fs2 files
      (r.1, t1 ++ t2 ++ t3 ++ r.2, Except.ok ())
    else
      (fs2, t1 ++ t2 ++ t3 ++ [Effect.exitCode 0], Except.ok ())

/-- A small run configuration used by the concrete evaluations below:
output root `out`, match-all prefix, `.jpg` suffix expanded to both cases as
`setup_args` does, and an (empty) `--exclude` list so that line 118 does not
trip over `None`. -/
def cfg0 : Config :=
  ⟨"out", [""], [".jpg", ".JPG"], some []⟩

/-- `cfg0` with `--exclude` omitted (`args.exclude = None`). -/
def cfgNoExclude : Config :=
  ⟨"out", [""], [".jpg", ".JPG"], none⟩

/-- A fresh output tree: the output root and failed root exist (created by
`setup_args`) and no file has been copied yet. -/
def fs0 : FS :=
  ⟨[], ["out", "out/failed"]⟩

/-- A file whose metadata resolves to `2023:04:15 15:30:00`. -/
def f_a : SourceFile :=
  ⟨"a.jpg", "/s", "A", some [("EXIF:DateTimeOriginal", "2023:04:15 15:30:00")], false⟩

/-- Distinct content, same resolved date as `f_a`, and a basename equal to
the canonical destination name. -/
def f_b : SourceFile :=
  ⟨"2023.04.15_15.30.00.jpg", "/s", "B",
    some [("EXIF:DateTimeOriginal", "2023:04:15 15:30:00")], false⟩

/-- Distinct content, same resolved date as `f_a`, ordinary basename. -/
def f_b2 : SourceFile :=
  ⟨"b.jpg", "/s", "B", some [("EXIF:DateTimeOriginal", "2023:04:15 15:30:00")], false⟩

/-- An unresolvable file: readable but dateless metadata and no 14-digit
run in the filename. -/
def f_u : SourceFile :=
  ⟨"holiday.jpg", "/src/pics", "X", some [], false⟩

/-- An unresolvable file used for the quarantine claims. -/
def f_q : SourceFile :=
  ⟨"scan.jpg", "/d/e", "S", some [], false⟩

/-- The spec's worked scenario: `IMG_20230415_153000.jpg` with no usable
metadata. -/
def f7 : SourceFile :=
  ⟨"IMG_20230415_153000.jpg", "/photos", "P", some [], false⟩

/-- A file that passes every filter of `cfg0`. -/
def f8 : SourceFile :=
  ⟨"pic.jpg", "/s8", "C8", some [("EXIF:DateTimeOriginal", "2022:01:01 00:00:00")], false⟩

/-- Same as `f8` with a mixed-case extension. -/
def f8m : SourceFile :=
  ⟨"pic.jPg", "/s8", "C8", some [("EXIF:DateTimeOriginal", "2022:01:01 00:00:00")], false⟩

/-- An output tree already holding the canonical copy of `f_a`. -/
def fs3 : FS :=
  ⟨[("out/2023/2023.04.15_15.30.00.jpg", "A")], ["out", "out/failed", "out/2023"]⟩

/-- Command-line arguments for the orchestrator claims. -/
def args9 : Args :=
  ⟨some [], [".jpg"], [""], "out", "indir"⟩

/-- Character count of a string (used for disequalities between planned
destination names). -/
def dlen (s : String) : Nat :=
  s.data.length

theorem findFirstKey_eq_firstPresent (md : List (String × String)) (ks : List String) :
    findFirstKey md ks =
      match firstPresent md ks with
      | some v => Except.ok v
      | none => Except.error PyErr.keyError := by
  induction ks with
  | nil => rfl
  | cons k ks ih =>
    simp only [findFirstKey, firstPresent]
    cases lookupMeta md k with
    | none => simpa using ih
    | some v => rfl

/-- C2: for every file whose metadata is readable, the date resolver looks up
`EXIF:DateTimeOriginal`, `MakerNotes:DateTimeOriginal`, then
`QuickTime:CreateDate`, in that order, and returns the first present value as
a string — in particular independently of the filename, which the metadata
path never inspects. -/
theorem c2_metadata_key_priority (f : SourceFile) (md : List (String × String)) (v : String)
    (hmd : f.metadata = some md)
    (hv : firstPresent md metadata_keys = some v) :
    get_date f = Except.ok (some v) := by
  have h1 : parse_date_from_metadata f metadata_keys = Except.ok v := by
    simp only [parse_date_from_metadata, hmd, findFirstKey_eq_firstPresent, hv]
  simp only [get_date, h1]

theorem c2_metadata_key_priority_witness :
    get_date ⟨"beach_000.jpg", "/cam", "bytes0",
        some [("EXIF:DateTimeOriginal", "2020:01:02 03:04:05")], false⟩ =
      Except.ok (some "2020:01:02 03:04:05") :=
  c2_metadata_key_priority _ _ _ rfl rfl

/-- C1: the claim states that a filename carrying exactly 14 digits resolves,
via the filename strategy, to the date parsed from those digits.  On the
code this is false: `parse_filename_to_date` reaches
`str(dateutil.parse(only_numbers))` (line 51), which raises `NameError`
because the module only binds the name `parse` (`from dateutil import
parse`); `get_date` does not catch `NameError`, so resolution raises instead
of returning the parsed date.  Evaluation of the embedded code at a concrete
14-digit filename with readable but dateless metadata. -/
theorem c1_filename_parse_raises_nameerror :
    get_date ⟨"IMG_20230415_153000.jpg", "/dcim", "bytes1", some [], false⟩ =
      Except.error PyErr.nameError := rfl

/-- C6: the claim states that date-resolution failure is never fatal.  On the
code it is fatal for every file whose stripped filename holds exactly 14
digits and whose metadata yields no date: the uncaught `NameError` of
`parse_filename_to_date` propagates out of `get_date` (first conjunct).
Moreover a present-but-malformed metadata timestamp is not treated as "not
found": `parse_date_from_metadata` returns `str(metadata[key])` verbatim with
no validation (second conjunct). -/
theorem c6_resolution_fatal_and_malformed_passthrough :
    get_date ⟨"VID_20210101_120000.mp4", "/clips", "bytes2", none, false⟩ =
        Except.error PyErr.nameError ∧
      get_date ⟨"clip.mov", "/clips", "bytes3",
          some [("EXIF:DateTimeOriginal", "not a timestamp")], false⟩ =
        Except.ok (some "not a timestamp") :=
  ⟨rfl, rfl⟩

theorem strData_append (s t : String) : (s ++ t).data = s.data ++ t.data := by
  cases s
  cases t
  rfl

theorem strEq_of_data {s t : String} (h : s.data = t.data) : s = t := by
  cases s
  cases t
  exact congrArg String.mk h

theorem dlen_append (s t : String) : dlen (s ++ t) = dlen s + dlen t := by
  unfold dlen
  rw [strData_append, List.length_append]

theorem joinPath_ne_of_ne (d : String) {a b : String} (h : a ≠ b) :
    joinPath d a ≠ joinPath d b := by
  intro he
  apply h
  have hd := congrArg String.data he
  simp only [joinPath, strData_append] at hd
  exact strEq_of_data (List.append_cancel_left hd)

theorem splitext_append (p : String) : (splitext p).1 ++ (splitext p).2 = p := by
  unfold splitext
  cases hld : lastDotIndex (strChars p) with
  | none =>
    simp only [hld]
    apply strEq_of_data
    rw [strData_append]
    show p.data ++ ([] : List Char) = p.data
    simp
  | some d =>
    simp only [hld]
    split
    · apply strEq_of_data
      rw [strData_append]
      show p.data ++ ([] : List Char) = p.data
      simp
    · apply strEq_of_data
      rw [strData_append]
      exact List.take_append_drop d p.data

theorem collisionName_ne (nn : String) :
    (splitext nn).1 ++ "_collision" ++ (splitext nn).2 ≠ nn := by
  intro h
  have h1 := congrArg dlen h
  have h2 := congrArg dlen (splitext_append nn)
  rw [dlen_append, dlen_append] at h1
  rw [dlen_append] at h2
  have h3 : dlen "_collision" = 10 := rfl
  omega

theorem create_dir_files (fs : FS) (d : String) : ((create_dir fs d).1).files = fs.files := by
  unfold create_dir
  split <;> rfl

theorem create_dir_trace (fs : FS) (d : String) :
    (create_dir fs d).2 = [] ∨ (create_dir fs d).2 = [Effect.mkdir d] := by
  unfold create_dir
  split
  · exact Or.inl rfl
  · exact Or.inr rfl

theorem lookupF_write_self (l : List (String × String)) (p c : String) :
    lookupF (writeFile l p c) p = some c := by
  induction l with
  | nil => simp [writeFile, lookupF]
  | cons kv rest ih =>
    obtain ⟨q, d⟩ := kv
    by_cases h : q = p
    · simp [writeFile, lookupF, h]
    · simp [writeFile, lookupF, h, ih]

theorem lookupF_write_ne (l : List (String × String)) {p q : String} (c : String) (h : p ≠ q) :
    lookupF (writeFile l q c) p = lookupF l p := by
  have h' : ¬(q = p) := fun he => h he.symm
  induction l with
  | nil => simp [writeFile, lookupF, h']
  | cons kv rest ih =>
    obtain ⟨q', d⟩ := kv
    by_cases hq : q' = q
    · subst hq
      simp [writeFile, lookupF, h']
    · simp [writeFile, lookupF, hq, ih]

theorem lookupF_erase_ne (l : List (String × String)) {p q : String} (h : p ≠ q) :
    lookupF (eraseFile l q) p = lookupF l p := by
  have h' : ¬(q = p) := fun he => h he.symm
  induction l with
  | nil => simp [eraseFile, lookupF]
  | cons kv rest ih =>
    obtain ⟨q', d⟩ := kv
    by_cases hq : q' = q
    · subst hq
      simp [eraseFile, lookupF, h', ih]
    · simp [eraseFile, lookupF, hq, ih]

theorem get_new_name_of_none {f : SourceFile} (hdate : get_date f = Except.ok none) :
    get_new_name f = Except.ok none := by
  simp only [get_new_name, hdate]

/-- C5: every file that passes the filter stage and whose date no strategy
resolves is placed under the failed root, in the subdirectory named by the
absolute parent path with `/` flattened to `_`, under its original filename
— the only write the step performs — and hence never under a year bucket. -/
theorem c5_unresolved_quarantine (cfg : Config) (fs : FS) (f : SourceFile) (exs : List String)
    (hdir : f.isDir = false)
    (hpre : (cfg.prefixes.any fun p => strStartsWith f.name p) = true)
    (hsuf : (cfg.suffixes.any fun s => strEndsWith f.name s) = true)
    (hex : cfg.exclude = some exs)
    (hnoex : (exs.any fun ex => strContains f.parentAbs ex) = false)
    (hdate : get_date f = Except.ok none) :
    (copy_and_rename_file cfg fs f).fs.files =
      writeFile fs.files (joinPath (quarantineDir cfg f) f.name) f.content := by
  have hnn := get_new_name_of_none hdate
  simp only [copy_and_rename_file, hdir, hpre, hsuf, hex, hnoex, hnn, Bool.false_eq_true,
    if_false, Bool.not_true, create_dir_files]

theorem c5_unresolved_quarantine_witness :
    (copy_and_rename_file cfg0 fs0 f_q).fs.files =
      writeFile fs0.files (joinPath (quarantineDir cfg0 f_q) f_q.name) f_q.content :=
  c5_unresolved_quarantine cfg0 fs0 f_q [] rfl rfl rfl rfl rfl rfl

/-- C10: for an unresolvable file the duplicate/collision check is skipped
entirely: even when the quarantine destination already holds a file of
different content, that file is silently overwritten by the new copy — no
content comparison, no skip log record, no rename to a `_collision` name. -/
theorem c10_quarantine_overwrite (cfg : Config) (fs : FS) (f : SourceFile) (exs : List String)
    (cOld : String)
    (hdir : f.isDir = false)
    (hpre : (cfg.prefixes.any fun p => strStartsWith f.name p) = true)
    (hsuf : (cfg.suffixes.any fun s => strEndsWith f.name s) = true)
    (hex : cfg.exclude = some exs)
    (hnoex : (exs.any fun ex => strContains f.parentAbs ex) = false)
    (hdate : get_date f = Except.ok none)
    (hold : lookupF fs.files (joinPath (quarantineDir cfg f) f.name) = some cOld)
    (hdiff : cOld ≠ f.content) :
    lookupF (copy_and_rename_file cfg fs f).fs.files (joinPath (quarantineDir cfg f) f.name) =
        some f.content ∧
      ((copy_and_rename_file cfg fs f).trace.any isLogSkip) = false ∧
      ((copy_and_rename_file cfg fs f).trace.any isRenameEff) = false := by
  have hnn := get_new_name_of_none hdate
  simp only [copy_and_rename_file, hdir, hpre, hsuf, hex, hnoex, hnn, Bool.false_eq_true,
    if_false, Bool.not_true, create_dir_files]
  refine ⟨lookupF_write_self _ _ _, ?_, ?_⟩ <;>
    rcases create_dir_trace fs (quarantineDir cfg f) with h | h <;>
      simp [h, isLogSkip, isRenameEff, isCopyInto]

theorem c10_quarantine_overwrite_witness :
    lookupF (copy_and_rename_file cfg0
        ⟨[("out/failed/_d_e/scan.jpg", "OLD")], ["out", "out/failed"]⟩ f_q).fs.files
        (joinPath (quarantineDir cfg0 f_q) f_q.name) = some f_q.content ∧
      ((copy_and_rename_file cfg0
        ⟨[("out/failed/_d_e/scan.jpg", "OLD")], ["out", "out/failed"]⟩ f_q).trace.any isLogSkip)
        = false ∧
      ((copy_and_rename_file cfg0
        ⟨[("out/failed/_d_e/scan.jpg", "OLD")], ["out", "out/failed"]⟩ f_q).trace.any isRenameEff)
        = false :=
  c10_quarantine_overwrite cfg0 _ f_q [] "OLD" rfl rfl rfl rfl rfl rfl rfl (by decide)

/-- C3 (counterexample): the claim's second half says that re-running the
pipeline over an unchanged input against the same output tree copies
nothing.  An unresolvable file refutes it: the second run performs a copy
(overwriting the quarantine copy) and logs no duplicate skip. -/
theorem c3_second_run_copies_again :
    ((process_files cfg0 (process_files cfg0 fs0 [f_u]).1 [f_u]).2.any isCopyInto) = true ∧
      ((process_files cfg0 (process_files cfg0 fs0 [f_u]).1 [f_u]).2.any isLogSkip) = false :=
  ⟨rfl, rfl⟩

/-- C3 (amended): for every file with a resolved date whose planned
destination already holds byte-identical content, the step logs a skip and
performs no copy, leaving the files of the output tree unchanged — so a
second run copies nothing for files with resolved dates and no collisions;
unresolvable files, however, are re-copied on every run (see the
counterexample). -/
theorem c3_duplicate_skip (cfg : Config) (fs : FS) (f : SourceFile) (exs : List String)
    (nn : String)
    (hdir : f.isDir = false)
    (hpre : (cfg.prefixes.any fun p => strStartsWith f.name p) = true)
    (hsuf : (cfg.suffixes.any fun s => strEndsWith f.name s) = true)
    (hex : cfg.exclude = some exs)
    (hnoex : (exs.any fun ex => strContains f.parentAbs ex) = false)
    (hnn : get_new_name f = Except.ok (some nn))
    (hdup : lookupF fs.files (joinPath (yearDir cfg nn) nn) = some f.content) :
    (copy_and_rename_file cfg fs f).fs.files = fs.files ∧
      ((copy_and_rename_file cfg fs f).trace.any isCopyInto) = false ∧
      ((copy_and_rename_file cfg fs f).trace.any isLogSkip) = true := by
  simp only [copy_and_rename_file, hdir, hpre, hsuf, hex, hnoex, hnn, Bool.false_eq_true,
    if_false, Bool.not_true, create_dir_files, hdup]
  simp only [if_true]
  refine ⟨create_dir_files _ _, ?_, ?_⟩ <;>
    rcases create_dir_trace fs (yearDir cfg nn) with h | h <;>
      simp [h, isLogSkip, isCopyInto]

theorem c3_duplicate_skip_witness :
    (copy_and_rename_file cfg0 fs3 f_a).fs.files = fs3.files ∧
      ((copy_and_rename_file cfg0 fs3 f_a).trace.any isCopyInto) = false ∧
      ((copy_and_rename_file cfg0 fs3 f_a).trace.any isLogSkip) = true :=
  c3_duplicate_skip cfg0 fs3 f_a [] "2023.04.15_15.30.00.jpg" rfl rfl rfl rfl rfl rfl rfl

/-- C4 (counterexample): the claim says that for every pair of
distinct-content files resolving to the same destination name, the first
keeps the canonical name and both survive.  When the second file's own
basename equals the canonical name, `shutil.copy` into the bucket first
overwrites the canonical copy and the rename then moves it away: after
processing `f_a` then `f_b`, the canonical destination no longer exists and
only the `_collision` file survives. -/
theorem c4_canonical_file_lost :
    lookupF (process_files cfg0 fs0 [f_a, f_b]).1.files
        "out/2023/2023.04.15_15.30.00.jpg" = none ∧
      lookupF (process_files cfg0 fs0 [f_a, f_b]).1.files
        "out/2023/2023.04.15_15.30.00_collision.jpg" = some "B" :=
  ⟨rfl, rfl⟩

/-- C4 (amended): for a pair of distinct-content files resolving to the same
destination name, provided the second file's own basename differs from the
canonical destination name, the second is copied under the name with the
`_collision` marker appended before the extension, the canonical copy keeps
its content, and both survive; the write to the `_collision` name happens
with no further collision check against it. -/
theorem c4_collision_rename (cfg : Config) (fs : FS) (f : SourceFile) (exs : List String)
    (nn c1 : String)
    (hdir : f.isDir = false)
    (hpre : (cfg.prefixes.any fun p => strStartsWith f.name p) = true)
    (hsuf : (cfg.suffixes.any fun s => strEndsWith f.name s) = true)
    (hex : cfg.exclude = some exs)
    (hnoex : (exs.any fun ex => strContains f.parentAbs ex) = false)
    (hnn : get_new_name f = Except.ok (some nn))
    (hname : f.name ≠ nn)
    (hdst : lookupF fs.files (joinPath (yearDir cfg nn) nn) = some c1)
    (hdiff : c1 ≠ f.content) :
    lookupF (copy_and_rename_file cfg fs f).fs.files (joinPath (yearDir cfg nn) nn) = some c1 ∧
      lookupF (copy_and_rename_file cfg fs f).fs.files
        (joinPath (yearDir cfg nn) ((splitext nn).1 ++ "_collision" ++ (splitext nn).2)) =
        some f.content := by
  have hcne : nn ≠ (splitext nn).1 ++ "_collision" ++ (splitext nn).2 :=
    fun he => collisionName_ne nn he.symm
  have hdstne := joinPath_ne_of_ne (yearDir cfg nn) hcne
  have htmpne := joinPath_ne_of_ne (yearDir cfg nn) (fun he => hname he.symm : nn ≠ f.name)
  simp only [copy_and_rename_file, hdir, hpre, hsuf, hex, hnoex, hnn, Bool.false_eq_true,
    if_false, Bool.not_true, create_dir_files, hdst]
  rw [if_neg hdiff]
  simp only [copy_then_rename, create_dir_files]
  constructor
  · rw [lookupF_write_ne _ _ hdstne, lookupF_erase_ne _ htmpne,
      lookupF_write_ne _ _ htmpne, hdst]
  · exact lookupF_write_self _ _ _

theorem c4_collision_rename_witness :
    lookupF (copy_and_rename_file cfg0 fs3 f_b2).fs.files
        (joinPath (yearDir cfg0 "2023.04.15_15.30.00.jpg") "2023.04.15_15.30.00.jpg") =
        some "A" ∧
      lookupF (copy_and_rename_file cfg0 fs3 f_b2).fs.files
        (joinPath (yearDir cfg0 "2023.04.15_15.30.00.jpg")
          ((splitext "2023.04.15_15.30.00.jpg").1 ++ "_collision" ++
            (splitext "2023.04.15_15.30.00.jpg").2)) = some f_b2.content :=
  c4_collision_rename cfg0 fs3 f_b2 [] "2023.04.15_15.30.00.jpg" "A"
    rfl rfl rfl rfl rfl rfl (by decide) rfl (by decide)

/-- C7: the claim's worked scenario says `IMG_20230415_153000.jpg` with no
usable metadata is placed at `out/2023/2023-04-15_15.30.00.jpg`.  On the
code the file is placed nowhere: `get_new_name` propagates the `NameError`
of `parse_filename_to_date` (the unbound `dateutil` on line 51), so the task
dies before computing a destination, mutating nothing and logging nothing. -/
theorem c7_scenario_nameerror :
    copy_and_rename_file cfg0 fs0 f7 = ⟨fs0, [], Except.error PyErr.nameError⟩ :=
  rfl

/-- C8: the claim says that with `--exclude` omitted the exclusion check
excludes nothing.  On the code, line 118 iterates over `args.exclude = None`
and raises `TypeError`, so a file passing the prefix and suffix filters is
still not processed at all (first conjunct).  The claim's "case-insensitive"
suffix matching is also only an upper/lower expansion: `pic.jPg` matches
neither `.jpg` nor `.JPG` and is filtered out (second conjunct). -/
theorem c8_exclude_omitted_typeerror :
    copy_and_rename_file cfgNoExclude fs0 f8 = ⟨fs0, [], Except.error PyErr.typeError⟩ ∧
      copy_and_rename_file cfg0 fs0 f8m = ⟨fs0, [], Except.ok ()⟩ :=
  ⟨rfl, rfl⟩

/-- C9 (counterexample): the claim says a non-`y` answer to the proceed
prompt terminates with exit status 0 performing no filesystem mutation.  On
the code, `setup_args` creates the output root and the failed root before
the prompt is ever shown: with answer `"n"` on a fresh tree the run still
creates both directories (and then exits 0). -/
theorem c9_dirs_created_before_prompt :
    main_run args9 "n" ⟨[], []⟩ [] =
      (⟨[], ["out", "out/failed"]⟩,
        [Effect.mkdir "out", Effect.mkdir "out/failed", Effect.printSummary, Effect.promptUser,
          Effect.exitCode 0],
        Except.ok ()) :=
  rfl

/-- C9 (amended): any answer other than exactly `y` makes the run exit with
status 0 having copied no file and written nothing into the output tree —
but the output root and the failed root have already been created before the
prompt. -/
theorem c9_abort_exits_zero_no_copy (a : Args) (answer : String) (fsStart : FS)
    (files : List SourceFile)
    (hpar : parentOfPath a.out ≠ a.dir) (hans : answer ≠ "y") :
    (main_run a answer fsStart files).1.files = fsStart.files ∧
      Effect.exitCode 0 ∈ (main_run a answer fsStart files).2.1 ∧
      ((main_run a answer fsStart files).2.1.any isCopyInto) = false ∧
      ((main_run a answer fsStart files).2.1.any isLogSkip) = false := by
  simp only [main_run, if_neg hpar, if_neg hans]
  refine ⟨by rw [create_dir_files, create_dir_files], ?_, ?_, ?_⟩
  · simp
  · rcases create_dir_trace fsStart a.out with h1 | h1 <;>
      rcases create_dir_trace (create_dir fsStart a.out).1 (a.out ++ "/failed") with h2 | h2 <;>
        simp [h1, h2, isCopyInto]
  · rcases create_dir_trace fsStart a.out with h1 | h1 <;>
      rcases create_dir_trace (create_dir fsStart a.out).1 (a.out ++ "/failed") with h2 | h2 <;>
        simp [h1, h2, isLogSkip]

theorem c9_abort_exits_zero_no_copy_witness :
    (main_run args9 "n" ⟨[], []⟩ []).1.files = (⟨[], []⟩ : FS).files ∧
      Effect.exitCode 0 ∈ (main_run args9 "n" ⟨[], []⟩ []).2.1 ∧
      ((main_run args9 "n" ⟨[], []⟩ []).2.1.any isCopyInto) = false ∧
      ((main_run args9 "n" ⟨[], []⟩ []).2.1.any isLogSkip) = false :=
  c9_abort_exits_zero_no_copy args9 "n" ⟨[], []⟩ [] (by decide) (by decide)
